import Mathlib

/-!
Verification of the ft60x-rs driver layer: a shallow embedding of the
status-code translation (`src/error.rs`), the session and pipe I/O engine
(`src/lib.rs`), and the chunked bulk-transfer device (`src/device.rs`),
together with theorems about the properties the specification states.

Native (FFI) calls are modelled by oracles supplying the status codes and
byte counts the native layer would report; each embedded operation returns
its result together with the list of native calls it issued, and a
panic-class failure (Rust `panic!` or an out-of-bounds slice) is modelled
as `Option.none`.
-/

-- ===========================================================================
-- Status codes and the error taxonomy (src/error.rs)
-- ===========================================================================

/-- Error type corresponding to possible `FT_STATUS` errors, mirroring the
`D3xxError` enum in `src/error.rs` (discriminants 1..=32, plus the locally
defined `LibraryLoadFailed`). -/
inductive D3xxError where
  | InvalidHandle
  | DeviceNotFound
  | DeviceNotOpened
  | IoError
  | InsufficientResources
  | InvalidParameter
  | InvalidBaudRate
  | DeviceNotOpenedForErase
  | DeviceNotOpenedForWrite
  | FailedToWriteDevice
  | EEPROMReadFailed
  | EEPROMWriteFailed
  | EEPROMEraseFailed
  | EEPROMNotPresent
  | EEPROMNotProgrammed
  | InvalidArgs
  | NotSupported
  | NoMoreItems
  | Timeout
  | OperationAborted
  | ReservedPipe
  | InvalidControlRequestDirection
  | InvalidControLRequestType
  | IoPending
  | IoIncomplete
  | HandleEof
  | Busy
  | NoSystemResources
  | DeviceListNotReady
  | DeviceNotConnected
  | IncorrectDevicePath
  | OtherError
  | LibraryLoadFailed
deriving DecidableEq, Repr

/-- Embedding of `impl From<FT_STATUS> for D3xxError` in `src/error.rs`:
each raw status code in 1..=32 maps to its error variant, and any other
value panics (modelled as `none`). -/
def D3xxError.fromStatus : Nat → Option D3xxError
  | 1 => some D3xxError.InvalidHandle
  | 2 => some D3xxError.DeviceNotFound
  | 3 => some D3xxError.DeviceNotOpened
  | 4 => some D3xxError.IoError
  | 5 => some D3xxError.InsufficientResources
  | 6 => some D3xxError.InvalidParameter
  | 7 => some D3xxError.InvalidBaudRate
  | 8 => some D3xxError.DeviceNotOpenedForErase
  | 9 => some D3xxError.DeviceNotOpenedForWrite
  | 10 => some D3xxError.FailedToWriteDevice
  | 11 => some D3xxError.EEPROMReadFailed
  | 12 => some D3xxError.EEPROMWriteFailed
  | 13 => some D3xxError.EEPROMEraseFailed
  | 14 => some D3xxError.EEPROMNotPresent
  | 15 => some D3xxError.EEPROMNotProgrammed
  | 16 => some D3xxError.InvalidArgs
  | 17 => some D3xxError.NotSupported
  | 18 => some D3xxError.NoMoreItems
  | 19 => some D3xxError.Timeout
  | 20 => some D3xxError.OperationAborted
  | 21 => some D3xxError.ReservedPipe
  | 22 => some D3xxError.InvalidControlRequestDirection
  | 23 => some D3xxError.InvalidControLRequestType
  | 24 => some D3xxError.IoPending
  | 25 => some D3xxError.IoIncomplete
  | 26 => some D3xxError.HandleEof
  | 27 => some D3xxError.Busy
  | 28 => some D3xxError.NoSystemResources
  | 29 => some D3xxError.DeviceListNotReady
  | 30 => some D3xxError.DeviceNotConnected
  | 31 => some D3xxError.IncorrectDevicePath
  | 32 => some D3xxError.OtherError
  | _ => none

/-- Modelled from the spec: the `d3xx_error!` macro is imported from the
error module by `src/lib.rs` but its definition is not under `src/`.
Per the spec (section 4.1), the translation of a raw native status yields
`Ok(())` when the status is the success sentinel 0 and otherwise converts
the code through the fixed table (`D3xxError.fromStatus`); an unknown code
panics, which the table models as `none`. -/
def d3xx_error (code : Nat) : Option (Except D3xxError Unit) :=
  if code = 0 then some (Except.ok ())
  else (D3xxError.fromStatus code).map Except.error

-- ===========================================================================
-- Pipes (src/lib.rs)
-- ===========================================================================

/-- Represents a pipe used for communication with a D3XX device
(the `Pipe` enum in `src/lib.rs`). -/
inductive Pipe where
  | In0
  | In1
  | In2
  | In3
  | Out0
  | Out1
  | Out2
  | Out3
deriving DecidableEq, Repr

/-- Numeric endpoint address of each pipe: the discriminant values of the
`Pipe` enum in `src/lib.rs` (`pipe as c_uchar`). -/
def Pipe.addr : Pipe → Nat
  | Pipe.In0 => 0x82
  | Pipe.In1 => 0x83
  | Pipe.In2 => 0x84
  | Pipe.In3 => 0x85
  | Pipe.Out0 => 0x02
  | Pipe.Out1 => 0x03
  | Pipe.Out2 => 0x04
  | Pipe.Out3 => 0x05

/-- Check if the pipe is a read pipe (`Pipe::is_read_pipe` in `src/lib.rs`). -/
def Pipe.is_read_pipe : Pipe → Bool
  | Pipe.In0 | Pipe.In1 | Pipe.In2 | Pipe.In3 => true
  | Pipe.Out0 | Pipe.Out1 | Pipe.Out2 | Pipe.Out3 => false

/-- Check if the pipe is a write pipe (`Pipe::is_write_pipe` in `src/lib.rs`). -/
def Pipe.is_write_pipe : Pipe → Bool
  | Pipe.In0 | Pipe.In1 | Pipe.In2 | Pipe.In3 => false
  | Pipe.Out0 | Pipe.Out1 | Pipe.Out2 | Pipe.Out3 => true

-- ===========================================================================
-- Version decoder (src/lib.rs)
-- ===========================================================================

/-- Represents a D3XX driver or library version number
(the `Version` struct in `src/lib.rs`). -/
structure Version where
  major : Nat
  minor : Nat
  svn : Nat
  build : Nat
deriving DecidableEq, Repr

/-- Embedding of `Version::new` in `src/lib.rs`: unpack a 32-bit packed
version into its four byte fields by shift and mask. -/
def Version.new (version : Nat) : Version :=
  { major := (version >>> 24) &&& 0xFF
    minor := (version >>> 16) &&& 0xFF
    svn := (version >>> 8) &&& 0xFF
    build := version &&& 0xFF }

-- ===========================================================================
-- Claim C1: the status-to-error table
-- ===========================================================================

/-- Claim C1: for every raw status code in 1..=32 the translation yields
exactly the ErrorKind assigned to that code in the fixed table, the mapping
on codes below 33 is injective, and translation yields `Ok` if and only if
the code is 0. -/
theorem c1_status_table :
    (D3xxError.fromStatus 1 = some D3xxError.InvalidHandle ∧
     D3xxError.fromStatus 2 = some D3xxError.DeviceNotFound ∧
     D3xxError.fromStatus 3 = some D3xxError.DeviceNotOpened ∧
     D3xxError.fromStatus 4 = some D3xxError.IoError ∧
     D3xxError.fromStatus 5 = some D3xxError.InsufficientResources ∧
     D3xxError.fromStatus 6 = some D3xxError.InvalidParameter ∧
     D3xxError.fromStatus 7 = some D3xxError.InvalidBaudRate ∧
     D3xxError.fromStatus 8 = some D3xxError.DeviceNotOpenedForErase ∧
     D3xxError.fromStatus 9 = some D3xxError.DeviceNotOpenedForWrite ∧
     D3xxError.fromStatus 10 = some D3xxError.FailedToWriteDevice ∧
     D3xxError.fromStatus 11 = some D3xxError.EEPROMReadFailed ∧
     D3xxError.fromStatus 12 = some D3xxError.EEPROMWriteFailed ∧
     D3xxError.fromStatus 13 = some D3xxError.EEPROMEraseFailed ∧
     D3xxError.fromStatus 14 = some D3xxError.EEPROMNotPresent ∧
     D3xxError.fromStatus 15 = some D3xxError.EEPROMNotProgrammed ∧
     D3xxError.fromStatus 16 = some D3xxError.InvalidArgs ∧
     D3xxError.fromStatus 17 = some D3xxError.NotSupported ∧
     D3xxError.fromStatus 18 = some D3xxError.NoMoreItems ∧
     D3xxError.fromStatus 19 = some D3xxError.Timeout ∧
     D3xxError.fromStatus 20 = some D3xxError.OperationAborted ∧
     D3xxError.fromStatus 21 = some D3xxError.ReservedPipe ∧
     D3xxError.fromStatus 22 = some D3xxError.InvalidControlRequestDirection ∧
     D3xxError.fromStatus 23 = some D3xxError.InvalidControLRequestType ∧
     D3xxError.fromStatus 24 = some D3xxError.IoPending ∧
     D3xxError.fromStatus 25 = some D3xxError.IoIncomplete ∧
     D3xxError.fromStatus 26 = some D3xxError.HandleEof ∧
     D3xxError.fromStatus 27 = some D3xxError.Busy ∧
     D3xxError.fromStatus 28 = some D3xxError.NoSystemResources ∧
     D3xxError.fromStatus 29 = some D3xxError.DeviceListNotReady ∧
     D3xxError.fromStatus 30 = some D3xxError.DeviceNotConnected ∧
     D3xxError.fromStatus 31 = some D3xxError.IncorrectDevicePath ∧
     D3xxError.fromStatus 32 = some D3xxError.OtherError) ∧
    (∀ i, i < 33 → ∀ j, j < 33 →
      1 ≤ i → 1 ≤ j →
      D3xxError.fromStatus i = D3xxError.fromStatus j → i = j) ∧
    (∀ code : Nat, d3xx_error code = some (Except.ok ()) ↔ code = 0) := by
  refine ⟨by decide, by decide, ?_⟩
  intro code
  constructor
  · intro h
    by_contra hne
    rw [d3xx_error, if_neg hne] at h
    cases he : D3xxError.fromStatus code with
    | none => rw [he] at h; exact Option.noConfusion h
    | some e => rw [he] at h; simp at h
  · intro h
    subst h
    rfl

/-- Witness for C1: the injectivity conjunct applied at codes 4 and 4, and
the translation of the success sentinel evaluated at 0. -/
theorem c1_status_table_witness :
    (4 : Nat) = 4 ∧ d3xx_error 0 = some (Except.ok ()) :=
  ⟨c1_status_table.2.1 4 (by decide) 4 (by decide) (by decide) (by decide) rfl,
   (c1_status_table.2.2 0).mpr rfl⟩

-- ===========================================================================
-- Claim C7: out-of-range status codes fail fast
-- ===========================================================================

/-- Claim C7: for every raw status code outside 0..=32 the status-to-error
translation panics (modelled as `none`) rather than returning any ErrorKind;
in particular it never coerces an out-of-range code to `OtherError`. -/
theorem c7_out_of_range_panics (code : Nat) (h : 32 < code) :
    D3xxError.fromStatus code = none ∧
    d3xx_error code = none ∧
    D3xxError.fromStatus code ≠ some D3xxError.OtherError := by
  have hnone : D3xxError.fromStatus code = none := by
    rw [D3xxError.fromStatus.eq_def]
    split
    all_goals first | rfl | omega
  refine ⟨hnone, ?_, by rw [hnone]; exact fun hc => Option.noConfusion hc⟩
  rw [d3xx_error, if_neg (by omega), hnone]
  rfl

/-- Witness for C7: the first out-of-range code, 33, panics. -/
theorem c7_out_of_range_panics_witness :
    D3xxError.fromStatus 33 = none ∧
    d3xx_error 33 = none ∧
    D3xxError.fromStatus 33 ≠ some D3xxError.OtherError :=
  c7_out_of_range_panics 33 (by decide)

-- ===========================================================================
-- Claim C9: version decode round trip
-- ===========================================================================

/-- Claim C9: for all byte values a, b, c, d, decoding the 32-bit value
`a <<< 24 ||| b <<< 16 ||| c <<< 8 ||| d` with `Version.new` yields
major = a, minor = b, svn = c, build = d. -/
theorem c9_version_roundtrip (a b c d : Nat)
    (ha : a < 256) (hb : b < 256) (hc : c < 256) (hd : d < 256) :
    Version.new (a <<< 24 ||| b <<< 16 ||| c <<< 8 ||| d) =
      { major := a, minor := b, svn := c, build := d } := by
  have e8 : (2 : Nat) ^ 8 = 256 := by norm_num
  have e16 : (2 : Nat) ^ 16 = 65536 := by norm_num
  have e24 : (2 : Nat) ^ 24 = 16777216 := by norm_num
  have h1 : c <<< 8 ||| d = c * 256 + d := by
    have base : 2 ^ 8 * c + d = 2 ^ 8 * c ||| d :=
      Nat.mul_add_lt_is_or (by omega) c
    rw [Nat.mul_comm (2 ^ 8) c, e8] at base
    rw [Nat.shiftLeft_eq, e8]
    exact base.symm
  have h2 : b <<< 16 ||| (c * 256 + d) = b * 65536 + (c * 256 + d) := by
    have base : 2 ^ 16 * b + (c * 256 + d) = 2 ^ 16 * b ||| (c * 256 + d) :=
      Nat.mul_add_lt_is_or (by omega) b
    rw [Nat.mul_comm (2 ^ 16) b, e16] at base
    rw [Nat.shiftLeft_eq, e16]
    exact base.symm
  have h3 : a <<< 24 ||| (b * 65536 + (c * 256 + d)) =
      a * 16777216 + (b * 65536 + (c * 256 + d)) := by
    have base : 2 ^ 24 * a + (b * 65536 + (c * 256 + d)) =
        2 ^ 24 * a ||| (b * 65536 + (c * 256 + d)) :=
      Nat.mul_add_lt_is_or (by omega) a
    rw [Nat.mul_comm (2 ^ 24) a, e24] at base
    rw [Nat.shiftLeft_eq, e24]
    exact base.symm
  have henc : a <<< 24 ||| b <<< 16 ||| c <<< 8 ||| d =
      a * 16777216 + (b * 65536 + (c * 256 + d)) := by
    rw [Nat.lor_assoc, Nat.lor_assoc, h1, h2, h3]
  rw [henc, Version.new]
  have hmask : ∀ x : Nat, x &&& 0xFF = x % 256 := by
    intro x
    have := Nat.and_pow_two_sub_one_eq_mod x 8
    rw [e8] at this
    exact this
  simp only [Nat.shiftRight_eq_div_pow, hmask, e8, e16, e24, Version.mk.injEq]
  refine ⟨by omega, by omega, by omega, by omega⟩

/-- Witness for C9: the round trip evaluated at the boundary bytes
(0xFF, 0x00, 0xAB, 0xFF). -/
theorem c9_version_roundtrip_witness :
    Version.new (255 <<< 24 ||| 0 <<< 16 ||| 171 <<< 8 ||| 255) =
      { major := 255, minor := 0, svn := 171, build := 255 } :=
  c9_version_roundtrip 255 0 171 255 (by decide) (by decide) (by decide) (by decide)

-- ===========================================================================
-- Session pipe I/O engine (src/lib.rs, Device::write / Device::read)
-- ===========================================================================

/-- Record of one native D3XX call issued by the session layer, identified
by the function called and the arguments the source passes to it. -/
inductive D3xxCall where
  | writePipe (pipeId : Nat) (len : Nat)
  | readPipe (pipeId : Nat) (len : Nat)
  | abortPipe (pipeId : Nat)
  | close
deriving DecidableEq, Repr

/-- Oracle for one `Device::write` or `Device::read` invocation: the status
the native transfer call reports, the byte count it stores in
`bytes_transferred`, and the status a subsequent `FT_AbortPipe` reports. -/
structure TransferOracle where
  transferStatus : Nat
  transferBytes : Nat
  abortStatus : Nat

/-- Embedding of `Device::write` in `src/lib.rs` (lines 131..154): reject a
non-write pipe with `InvalidParameter` before any native call; otherwise
issue `FT_WritePipeEx` with the hardcoded pipe id `0x02` from the source,
and on a transfer error call `abort_transfers(pipe)` (pipe id
`pipe as c_uchar`) whose failure propagates through the `?` operator.
The result is paired with the list of native calls issued; `none` models a
panic inside the status translation. -/
def Device.write (o : TransferOracle) (pipe : Pipe) (bufLen : Nat) :
    Option (Except D3xxError Nat × List D3xxCall) :=
  if pipe.is_write_pipe = false then
    some (Except.error D3xxError.InvalidParameter, [])
  else
    match d3xx_error o.transferStatus with
    | none => none
    | some (Except.ok _) =>
      some (Except.ok o.transferBytes, [D3xxCall.writePipe 0x02 bufLen])
    | some (Except.error e) =>
      match d3xx_error o.abortStatus with
      | none => none
      | some (Except.ok _) =>
        some (Except.error e,
          [D3xxCall.writePipe 0x02 bufLen, D3xxCall.abortPipe pipe.addr])
      | some (Except.error e2) =>
        some (Except.error e2,
          [D3xxCall.writePipe 0x02 bufLen, D3xxCall.abortPipe pipe.addr])

/-- Embedding of `Device::read` in `src/lib.rs` (lines 158..181): reject a
non-read pipe with `InvalidParameter` before any native call; otherwise
issue `FT_ReadPipeEx` with the pipe id `pipe as c_uchar`, and on a transfer
error call `abort_transfers(pipe)` whose failure propagates through the
`?` operator. -/
def Device.read (o : TransferOracle) (pipe : Pipe) (bufLen : Nat) :
    Option (Except D3xxError Nat × List D3xxCall) :=
  if pipe.is_read_pipe = false then
    some (Except.error D3xxError.InvalidParameter, [])
  else
    match d3xx_error o.transferStatus with
    | none => none
    | some (Except.ok _) =>
      some (Except.ok o.transferBytes, [D3xxCall.readPipe pipe.addr bufLen])
    | some (Except.error e) =>
      match d3xx_error o.abortStatus with
      | none => none
      | some (Except.ok _) =>
        some (Except.error e,
          [D3xxCall.readPipe pipe.addr bufLen, D3xxCall.abortPipe pipe.addr])
      | some (Except.error e2) =>
        some (Except.error e2,
          [D3xxCall.readPipe pipe.addr bufLen, D3xxCall.abortPipe pipe.addr])

/-- Embedding of `impl Drop for Device` in `src/lib.rs` (lines 258..271):
`FT_Close(self.handle)` is called exactly once, and any nonzero status
panics (`none`); the close status is supplied by the oracle argument. -/
def Device.drop (closeStatus : Nat) : Option Unit × List D3xxCall :=
  (match closeStatus with
   | 0 => some ()
   | _ => none,
   [D3xxCall.close])

/-- Helper: every status code in 1..=32 is in the table. -/
theorem fromStatus_total (code : Nat) (h1 : 1 ≤ code) (h2 : code ≤ 32) :
    ∃ e, D3xxError.fromStatus code = some e := by
  interval_cases code
  all_goals exact ⟨_, rfl⟩

-- ===========================================================================
-- Claim C5: direction mismatch is rejected before any native call
-- ===========================================================================

/-- Claim C5: calling `Device::write` with a non-write pipe or
`Device::read` with a non-read pipe returns `Err(InvalidParameter)`
immediately and issues no native call of any kind (empty call list). -/
theorem c5_direction_mismatch (o : TransferOracle) (pipe : Pipe) (bufLen : Nat) :
    (pipe.is_write_pipe = false →
      Device.write o pipe bufLen =
        some (Except.error D3xxError.InvalidParameter, [])) ∧
    (pipe.is_read_pipe = false →
      Device.read o pipe bufLen =
        some (Except.error D3xxError.InvalidParameter, [])) := by
  constructor
  · intro h
    rw [Device.write, if_pos h]
  · intro h
    rw [Device.read, if_pos h]

/-- Witness for C5: a write on the read pipe In0 and a read on the write
pipe Out0 both fail with `InvalidParameter` and issue no native call. -/
theorem c5_direction_mismatch_witness :
    Device.write { transferStatus := 0, transferBytes := 7, abortStatus := 0 }
        Pipe.In0 7 =
      some (Except.error D3xxError.InvalidParameter, []) ∧
    Device.read { transferStatus := 0, transferBytes := 7, abortStatus := 0 }
        Pipe.Out0 7 =
      some (Except.error D3xxError.InvalidParameter, []) :=
  ⟨(c5_direction_mismatch ⟨0, 7, 0⟩ Pipe.In0 7).1 rfl,
   (c5_direction_mismatch ⟨0, 7, 0⟩ Pipe.Out0 7).2 rfl⟩

-- ===========================================================================
-- Claim C2: abort on transfer failure, and what error surfaces
-- ===========================================================================

/-- Claim C2 (amended): when the native transfer issued by `Device::write`
or `Device::read` fails, the engine issues an abort on that same pipe
before returning; if the abort succeeds the original transfer error is
returned, but if the abort itself fails the error of the abort replaces
the original transfer error (the `?` operator on `abort_transfers`
propagates the abort failure). -/
theorem c2_abort_then_propagate (o : TransferOracle) (pipe : Pipe) (bufLen : Nat)
    (h1 : 1 ≤ o.transferStatus) (h2 : o.transferStatus ≤ 32) :
    ∃ e, D3xxError.fromStatus o.transferStatus = some e ∧
      ((pipe.is_write_pipe = true →
        (o.abortStatus = 0 →
          Device.write o pipe bufLen =
            some (Except.error e,
              [D3xxCall.writePipe 0x02 bufLen, D3xxCall.abortPipe pipe.addr])) ∧
        (∀ e2, D3xxError.fromStatus o.abortStatus = some e2 →
          Device.write o pipe bufLen =
            some (Except.error e2,
              [D3xxCall.writePipe 0x02 bufLen, D3xxCall.abortPipe pipe.addr]))) ∧
      (pipe.is_read_pipe = true →
        (o.abortStatus = 0 →
          Device.read o pipe bufLen =
            some (Except.error e,
              [D3xxCall.readPipe pipe.addr bufLen, D3xxCall.abortPipe pipe.addr])) ∧
        (∀ e2, D3xxError.fromStatus o.abortStatus = some e2 →
          Device.read o pipe bufLen =
            some (Except.error e2,
              [D3xxCall.readPipe pipe.addr bufLen, D3xxCall.abortPipe pipe.addr])))) := by
  obtain ⟨e, he⟩ := fromStatus_total o.transferStatus h1 h2
  have ht : d3xx_error o.transferStatus = some (Except.error e) := by
    rw [d3xx_error, if_neg (by omega), he]
    rfl
  have hz : D3xxError.fromStatus 0 = none := rfl
  refine ⟨e, he, ?_, ?_⟩
  · intro hw
    have hnw : ¬ pipe.is_write_pipe = false := by
      simp [hw]
    constructor
    · intro ha
      have hta : d3xx_error o.abortStatus = some (Except.ok ()) := by
        rw [d3xx_error, if_pos ha]
      rw [Device.write, if_neg hnw, ht, hta]
    · intro e2 he2
      by_cases ha : o.abortStatus = 0
      · rw [ha, hz] at he2
        exact Option.noConfusion he2
      · have hta : d3xx_error o.abortStatus = some (Except.error e2) := by
          rw [d3xx_error, if_neg ha, he2]
          rfl
        rw [Device.write, if_neg hnw, ht, hta]
  · intro hr
    have hnr : ¬ pipe.is_read_pipe = false := by
      simp [hr]
    constructor
    · intro ha
      have hta : d3xx_error o.abortStatus = some (Except.ok ()) := by
        rw [d3xx_error, if_pos ha]
      rw [Device.read, if_neg hnr, ht, hta]
    · intro e2 he2
      by_cases ha : o.abortStatus = 0
      · rw [ha, hz] at he2
        exact Option.noConfusion he2
      · have hta : d3xx_error o.abortStatus = some (Except.error e2) := by
          rw [d3xx_error, if_neg ha, he2]
          rfl
        rw [Device.read, if_neg hnr, ht, hta]

/-- Witness for C2: a write on Out0 whose transfer fails with status 4
(IoError) and whose abort succeeds returns the original IoError, with the
abort issued on the same pipe. -/
theorem c2_abort_then_propagate_witness :
    Device.write { transferStatus := 4, transferBytes := 0, abortStatus := 0 }
        Pipe.Out0 10 =
      some (Except.error D3xxError.IoError,
        [D3xxCall.writePipe 0x02 10, D3xxCall.abortPipe 0x02]) := by
  obtain ⟨e, he, hwrite, -⟩ :=
    c2_abort_then_propagate ⟨4, 0, 0⟩ Pipe.Out0 10 (by decide) (by decide)
  have he4 : D3xxError.fromStatus 4 = some D3xxError.IoError := rfl
  rw [he4] at he
  injection he with he
  subst he
  exact (hwrite rfl).1 rfl

/-- Counterexample for C2 as stated: when the transfer fails with IoError
(status 4) and the abort itself fails with Timeout (status 19), the caller
receives Timeout, the error of the abort, not the original IoError. -/
theorem c2_abort_masks_original :
    Device.write { transferStatus := 4, transferBytes := 0, abortStatus := 19 }
        Pipe.Out0 10 =
      some (Except.error D3xxError.Timeout,
        [D3xxCall.writePipe 0x02 10, D3xxCall.abortPipe 0x02]) ∧
    D3xxError.Timeout ≠ D3xxError.IoError := by
  exact ⟨rfl, fun hc => D3xxError.noConfusion hc⟩

-- ===========================================================================
-- Claim C3: which pipe id reaches the native transfer call
-- ===========================================================================

/-- Claim C3 fails on the code: `Device::write` passes the hardcoded pipe
id `0x02` to `FT_WritePipeEx` for every out-pipe, so for Out1 (address
0x03) the native call receives 0x02; `Device::read` does pass the pipe
address of the pipe (here In1, 0x83). -/
theorem c3_write_endpoint_hardcoded :
    Device.write { transferStatus := 0, transferBytes := 4, abortStatus := 0 }
        Pipe.Out1 4 =
      some (Except.ok 4, [D3xxCall.writePipe 0x02 4]) ∧
    Pipe.Out1.addr = 0x03 ∧
    (0x02 : Nat) ≠ 0x03 ∧
    Device.read { transferStatus := 0, transferBytes := 8, abortStatus := 0 }
        Pipe.In1 8 =
      some (Except.ok 8, [D3xxCall.readPipe 0x83 8]) := by
  exact ⟨rfl, rfl, by decide, rfl⟩

-- ===========================================================================
-- Claim C8: drop closes exactly once and panics on failure
-- ===========================================================================

/-- Claim C8: dropping the `Device` issues the native `FT_Close` exactly
once, and a nonzero close status surfaces as a panic (modelled as `none`)
rather than being silently swallowed. -/
theorem c8_drop_close_once (closeStatus : Nat) :
    (Device.drop closeStatus).2 = [D3xxCall.close] ∧
    List.count D3xxCall.close (Device.drop closeStatus).2 = 1 ∧
    ((Device.drop closeStatus).1 = none ↔ closeStatus ≠ 0) := by
  refine ⟨rfl, rfl, ?_⟩
  cases closeStatus with
  | zero => simp [Device.drop]
  | succ n => simp [Device.drop]

-- ===========================================================================
-- Enumeration (src/lib.rs, list_device)
-- ===========================================================================

/-- Fixed size of the stack array of device records in `list_device`
(`const MAX_DEVICES: usize = 32` in `src/lib.rs`). -/
def MAX_DEVICES : Nat := 32

/-- Oracle for one `list_device` invocation over an abstract node type:
the status of `FT_CreateDeviceInfoList` and the count it stores, the
status of `FT_GetDeviceInfoList` and the count it stores, and the device
records the native layer fills the array with. -/
structure ListOracle (ν : Type) where
  createStatus : Nat
  createCount : Nat
  getStatus : Nat
  getCount : Nat
  nodes : Nat → ν

/-- Embedding of `list_device` in `src/lib.rs` (lines 617..633): translate
the status of each of the two native calls, then slice the fixed 32-element
array as `devices[..num_devices]` with the count reported by
`FT_GetDeviceInfoList` — a count above 32 makes that slice panic (`none`)
— and project each raw record to a `DeviceInfo` carrying its 0-based
index. -/
def list_device {ν : Type} (o : ListOracle ν) :
    Option (Except D3xxError (List (Nat × ν))) :=
  match d3xx_error o.createStatus with
  | none => none
  | some (Except.error e) => some (Except.error e)
  | some (Except.ok _) =>
    match d3xx_error o.getStatus with
    | none => none
    | some (Except.error e) => some (Except.error e)
    | some (Except.ok _) =>
      if o.getCount ≤ MAX_DEVICES then
        some (Except.ok ((List.range o.getCount).map (fun i => (i, o.nodes i))))
      else
        none

-- ===========================================================================
-- Claim C10: the fixed 32-record bound of list_device
-- ===========================================================================

/-- Claim C10: when both native enumeration calls succeed, a reported
device count above 32 makes `list_device` panic on the out-of-bounds
slice (modelled as `none`) instead of returning an error; `list_device`
returns without panicking exactly when the reported count is at most 32,
and then yields that many records, at most 32. -/
theorem c10_list_device_bound {ν : Type} (o : ListOracle ν)
    (hc : o.createStatus = 0) (hg : o.getStatus = 0) :
    (32 < o.getCount → list_device o = none) ∧
    ((list_device o).isSome ↔ o.getCount ≤ 32) ∧
    (∀ l, list_device o = some (Except.ok l) →
      l.length = o.getCount ∧ l.length ≤ 32) := by
  have hco : d3xx_error o.createStatus = some (Except.ok ()) := by
    rw [d3xx_error, if_pos hc]
  have hgo : d3xx_error o.getStatus = some (Except.ok ()) := by
    rw [d3xx_error, if_pos hg]
  have hld : list_device o =
      (if o.getCount ≤ MAX_DEVICES then
        some (Except.ok ((List.range o.getCount).map (fun i => (i, o.nodes i))))
      else none) := by
    rw [list_device, hco, hgo]
  refine ⟨?_, ?_, ?_⟩
  · intro hgt
    rw [hld, if_neg (by rw [MAX_DEVICES]; omega)]
  · rw [hld]
    by_cases hle : o.getCount ≤ MAX_DEVICES
    · rw [if_pos hle]
      simp [MAX_DEVICES] at hle
      simp [hle]
    · rw [if_neg hle]
      simp [MAX_DEVICES] at hle
      simp [hle]
  · intro l hl
    rw [hld] at hl
    by_cases hle : o.getCount ≤ MAX_DEVICES
    · rw [if_pos hle] at hl
      have hlen : l = (List.range o.getCount).map (fun i => (i, o.nodes i)) := by
        injection hl with hl
        injection hl with hl
        exact hl.symm
      rw [MAX_DEVICES] at hle
      subst hlen
      simp [hle]
    · rw [if_neg hle] at hl
      exact Option.noConfusion hl

/-- Witness for C10: with both calls succeeding and a reported count of 5,
`list_device` returns records without panicking. -/
theorem c10_list_device_bound_witness :
    (list_device (⟨0, 5, 0, 5, fun _ => ()⟩ : ListOracle Unit)).isSome :=
  ((c10_list_device_bound (⟨0, 5, 0, 5, fun _ => ()⟩ : ListOracle Unit)
    rfl rfl).2.1).mpr (by decide)

-- ===========================================================================
-- Chunked bulk transfer (src/device.rs, Ft60xDevice::read / Ft60xDevice::write)
-- ===========================================================================

/-- Modelled from the spec: the `Ft60xError` enum is referenced by
`src/device.rs` through `crate::error::Ft60xError` but its definition is
not under `src/`; the variants are exactly the ones `src/device.rs` names,
and the spec (section 4.4) describes `ReadError` and `WriteError` as the
short-chunk transfer errors. -/
inductive Ft60xError where
  | NoMatchingDevice
  | Unknown
  | ReadError
  | WriteError
deriving DecidableEq, Repr

/-- Models the `Box<dyn Error>` returned by `Ft60xDevice::read` and
`Ft60xDevice::write`: it holds either an error of the native transport
(rusb, an external collaborator of abstract type ε) propagated by the `?`
operator, or an `Ft60xError` of this crate. -/
inductive BoxedError (ε : Type) where
  | native (e : ε)
  | ft60x (e : Ft60xError)
deriving DecidableEq, Repr

/-- Record of one native USB call issued by the chunked-transfer layer:
the endpoint and requested length the source passes, and the byte count
the transport reported (`none` when the transport call itself failed). -/
inductive UsbCall where
  | readBulk (endpoint len : Nat) (moved : Option Nat)
  | writeBulk (endpoint len : Nat) (moved : Option Nat)
  | abortTransfers (endpoint : Nat)
deriving DecidableEq, Repr

/-- Block size of the chunked transfer:
`let blocksize: usize = 32 * 1024` in `src/device.rs`. -/
def blocksize : Nat := 32 * 1024

/-- Fuel-indexed splitting of a buffer length into chunk lengths, following
the semantics of `buf.chunks(blocksize)`: consecutive blocks of
`blocksize` bytes, the final block possibly smaller, no block for an empty
buffer. The fuel only bounds the recursion; `chunkLens` supplies enough. -/
def chunkLensAux : Nat → Nat → List Nat
  | 0, _ => []
  | fuel + 1, len =>
    if len = 0 then []
    else if len ≤ blocksize then [len]
    else blocksize :: chunkLensAux fuel (len - blocksize)

/-- Chunk lengths of a buffer of `len` bytes, as iterated by
`buf.chunks(blocksize)` in `src/device.rs`. -/
def chunkLens (len : Nat) : List Nat := chunkLensAux len len

/-- Helper: closed form of the chunk splitting — `len / blocksize` full
blocks followed by the remainder when it is nonzero. -/
theorem chunkLensAux_eq (fuel : Nat) : ∀ len, len ≤ fuel →
    chunkLensAux fuel len =
      List.replicate (len / blocksize) blocksize ++
        (if len % blocksize = 0 then [] else [len % blocksize]) := by
  have hb : blocksize = 32768 := rfl
  induction fuel with
  | zero =>
    intro len hl
    have h0 : len = 0 := by omega
    subst h0
    simp [chunkLensAux]
  | succ fuel ih =>
    intro len hl
    by_cases h0 : len = 0
    · subst h0
      simp [chunkLensAux]
    · by_cases hle : len ≤ blocksize
      · rcases Nat.lt_or_ge len blocksize with hlt | hge
        · have hdiv : len / blocksize = 0 := Nat.div_eq_of_lt hlt
          have hmod : len % blocksize = len := Nat.mod_eq_of_lt hlt
          rw [chunkLensAux, if_neg h0, if_pos hle, hdiv, hmod, if_neg h0]
          rfl
        · have heq : len = blocksize := le_antisymm hle hge
          subst heq
          rw [chunkLensAux, if_neg h0, if_pos le_rfl, Nat.div_self (by omega),
            Nat.mod_self, if_pos rfl]
          rfl
      · have hrec := ih (len - blocksize) (by omega)
        rw [chunkLensAux, if_neg h0, if_neg hle, hrec]
        have hdiv : len / blocksize = (len - blocksize) / blocksize + 1 :=
          Nat.div_eq_sub_div (by omega) (by omega)
        have hmod : len % blocksize = (len - blocksize) % blocksize :=
          Nat.mod_eq_sub_mod (by omega)
        rw [hdiv, hmod, List.replicate_succ, List.cons_append]

/-- Closed form of `chunkLens`. -/
theorem chunkLens_eq (len : Nat) :
    chunkLens len =
      List.replicate (len / blocksize) blocksize ++
        (if len % blocksize = 0 then [] else [len % blocksize]) :=
  chunkLensAux_eq len len le_rfl

/-- Embedding of the loop body of `Ft60xDevice::read` in `src/device.rs`
(lines 87..98), run over a list of chunk lengths starting at chunk index
`idx`: each chunk issues `read_bulk(0x82, chunk, 1s)`; a transport error
propagates through the `?` operator, a successful call returning fewer or
more bytes than the chunk length raises `Ft60xError::ReadError`, and only
a full chunk lets the loop continue. The oracle maps a chunk index to the
outcome of its `read_bulk` call. -/
def readChunks {ε : Type} (oracle : Nat → Except ε Nat) :
    List Nat → Nat → Except (BoxedError ε) Unit × List UsbCall
  | [], _ => (Except.ok (), [])
  | l :: rest, idx =>
    match oracle idx with
    | Except.error e =>
      (Except.error (BoxedError.native e), [UsbCall.readBulk 0x82 l none])
    | Except.ok read_amount =>
      if read_amount ≠ l then
        (Except.error (BoxedError.ft60x Ft60xError.ReadError),
          [UsbCall.readBulk 0x82 l (some read_amount)])
      else
        ((readChunks oracle rest (idx + 1)).1,
          UsbCall.readBulk 0x82 l (some read_amount) ::
            (readChunks oracle rest (idx + 1)).2)

/-- Embedding of the loop body of `Ft60xDevice::write` in `src/device.rs`
(lines 100..111): each chunk issues `write_bulk(0x80, chunk, 1s)` (the
endpoint `0x80` is the literal the source passes); a transport error
propagates through the `?` operator, a short or long reported count raises
`Ft60xError::WriteError`. -/
def writeChunks {ε : Type} (oracle : Nat → Except ε Nat) :
    List Nat → Nat → Except (BoxedError ε) Unit × List UsbCall
  | [], _ => (Except.ok (), [])
  | l :: rest, idx =>
    match oracle idx with
    | Except.error e =>
      (Except.error (BoxedError.native e), [UsbCall.writeBulk 0x80 l none])
    | Except.ok write_amount =>
      if write_amount ≠ l then
        (Except.error (BoxedError.ft60x Ft60xError.WriteError),
          [UsbCall.writeBulk 0x80 l (some write_amount)])
      else
        ((writeChunks oracle rest (idx + 1)).1,
          UsbCall.writeBulk 0x80 l (some write_amount) ::
            (writeChunks oracle rest (idx + 1)).2)

/-- Embedding of `Ft60xDevice::read` in `src/device.rs`: split the buffer
into `blocksize` chunks and run the transfer loop from chunk index 0. -/
def Ft60xDevice.read {ε : Type} (oracle : Nat → Except ε Nat) (bufLen : Nat) :
    Except (BoxedError ε) Unit × List UsbCall :=
  readChunks oracle (chunkLens bufLen) 0

/-- Embedding of `Ft60xDevice::write` in `src/device.rs`: split the buffer
into `blocksize` chunks and run the transfer loop from chunk index 0. -/
def Ft60xDevice.write {ε : Type} (oracle : Nat → Except ε Nat) (bufLen : Nat) :
    Except (BoxedError ε) Unit × List UsbCall :=
  writeChunks oracle (chunkLens bufLen) 0

/-- Byte count a recorded native call actually moved (0 for a failed call
or an abort). -/
def UsbCall.moved : UsbCall → Nat
  | UsbCall.readBulk _ _ (some m) => m
  | UsbCall.readBulk _ _ none => 0
  | UsbCall.writeBulk _ _ (some m) => m
  | UsbCall.writeBulk _ _ none => 0
  | UsbCall.abortTransfers _ => 0

/-- Total bytes moved across a trace of native calls. -/
def totalMoved (trace : List UsbCall) : Nat :=
  (trace.map UsbCall.moved).sum

/-- Check whether a recorded native call is an abort. -/
def UsbCall.isAbort : UsbCall → Bool
  | UsbCall.abortTransfers _ => true
  | UsbCall.readBulk _ _ _ => false
  | UsbCall.writeBulk _ _ _ => false

/-- Number of abort calls in a trace of native calls. -/
def abortCount (trace : List UsbCall) : Nat :=
  trace.countP UsbCall.isAbort

/-- Helper: when the oracle reports every chunk fully transferred, the read
loop succeeds and its trace records one full `read_bulk` per chunk, in
order. -/
theorem readChunks_success {ε : Type} (oracle : Nat → Except ε Nat)
    (lens : List Nat) (start : Nat)
    (h : ∀ i l, lens[i]? = some l → oracle (start + i) = Except.ok l) :
    readChunks oracle lens start =
      (Except.ok (), lens.map (fun l => UsbCall.readBulk 0x82 l (some l))) := by
  induction lens generalizing start with
  | nil => rfl
  | cons l rest ih =>
    have h0 : oracle start = Except.ok l := by
      have hx := h 0 l (by simp)
      simpa using hx
    have hrest : ∀ i x, rest[i]? = some x → oracle (start + 1 + i) = Except.ok x := by
      intro i x hx
      have hy := h (i + 1) x (by simpa using hx)
      have harith : start + (i + 1) = start + 1 + i := by omega
      rw [harith] at hy
      exact hy
    rw [readChunks, h0]
    simp [ih (start + 1) hrest]

/-- Helper: when the oracle reports every chunk fully transferred, the
write loop succeeds and its trace records one full `write_bulk` per chunk,
in order. -/
theorem writeChunks_success {ε : Type} (oracle : Nat → Except ε Nat)
    (lens : List Nat) (start : Nat)
    (h : ∀ i l, lens[i]? = some l → oracle (start + i) = Except.ok l) :
    writeChunks oracle lens start =
      (Except.ok (), lens.map (fun l => UsbCall.writeBulk 0x80 l (some l))) := by
  induction lens generalizing start with
  | nil => rfl
  | cons l rest ih =>
    have h0 : oracle start = Except.ok l := by
      have hx := h 0 l (by simp)
      simpa using hx
    have hrest : ∀ i x, rest[i]? = some x → oracle (start + 1 + i) = Except.ok x := by
      intro i x hx
      have hy := h (i + 1) x (by simpa using hx)
      have harith : start + (i + 1) = start + 1 + i := by omega
      rw [harith] at hy
      exact hy
    rw [writeChunks, h0]
    simp [ih (start + 1) hrest]

/-- Helper: when the first j chunks transfer fully and chunk j reports a
count different from its requested length, the read loop stops at chunk j
with `ReadError`; the trace holds the j full chunks followed by the one
failing call, and nothing after it. -/
theorem readChunks_short {ε : Type} (oracle : Nat → Except ε Nat) :
    ∀ (j : Nat) (lens : List Nat) (start l m : Nat),
    (∀ i, i < j → oracle (start + i) = Except.ok (lens.getD i 0)) →
    lens[j]? = some l →
    oracle (start + j) = Except.ok m →
    m ≠ l →
    readChunks oracle lens start =
      (Except.error (BoxedError.ft60x Ft60xError.ReadError),
        ((List.range j).map (fun i =>
          UsbCall.readBulk 0x82 (lens.getD i 0) (some (lens.getD i 0)))) ++
          [UsbCall.readBulk 0x82 l (some m)]) := by
  intro j
  induction j with
  | zero =>
    intro lens start l m hpre hj hm hne
    match lens, hj with
    | l0 :: rest, hj =>
      have hl0 : l0 = l := by simpa using hj
      subst hl0
      have hm0 : oracle start = Except.ok m := by simpa using hm
      rw [readChunks, hm0]
      simp [hne]
  | succ j ih =>
    intro lens start l m hpre hj hm hne
    match lens, hj with
    | l0 :: rest, hj =>
      have h0 : oracle start = Except.ok l0 := by
        have hx := hpre 0 (Nat.succ_pos j)
        simpa using hx
      have hpre2 : ∀ i, i < j →
          oracle (start + 1 + i) = Except.ok (rest.getD i 0) := by
        intro i hi
        have hx := hpre (i + 1) (by omega)
        have harith : start + (i + 1) = start + 1 + i := by omega
        rw [harith] at hx
        simpa using hx
      have hj2 : rest[j]? = some l := by simpa using hj
      have hm2 : oracle (start + 1 + j) = Except.ok m := by
        have harith : start + (j + 1) = start + 1 + j := by omega
        rw [harith] at hm
        exact hm
      have hrec := ih rest (start + 1) l m hpre2 hj2 hm2 hne
      rw [readChunks, h0]
      simp [hrec, List.range_succ_eq_map, List.map_map, Function.comp]

/-- Helper: the write-loop version of `readChunks_short`, stopping with
`WriteError` at the first short chunk. -/
theorem writeChunks_short {ε : Type} (oracle : Nat → Except ε Nat) :
    ∀ (j : Nat) (lens : List Nat) (start l m : Nat),
    (∀ i, i < j → oracle (start + i) = Except.ok (lens.getD i 0)) →
    lens[j]? = some l →
    oracle (start + j) = Except.ok m →
    m ≠ l →
    writeChunks oracle lens start =
      (Except.error (BoxedError.ft60x Ft60xError.WriteError),
        ((List.range j).map (fun i =>
          UsbCall.writeBulk 0x80 (lens.getD i 0) (some (lens.getD i 0)))) ++
          [UsbCall.writeBulk 0x80 l (some m)]) := by
  intro j
  induction j with
  | zero =>
    intro lens start l m hpre hj hm hne
    match lens, hj with
    | l0 :: rest, hj =>
      have hl0 : l0 = l := by simpa using hj
      subst hl0
      have hm0 : oracle start = Except.ok m := by simpa using hm
      rw [writeChunks, hm0]
      simp [hne]
  | succ j ih =>
    intro lens start l m hpre hj hm hne
    match lens, hj with
    | l0 :: rest, hj =>
      have h0 : oracle start = Except.ok l0 := by
        have hx := hpre 0 (Nat.succ_pos j)
        simpa using hx
      have hpre2 : ∀ i, i < j →
          oracle (start + 1 + i) = Except.ok (rest.getD i 0) := by
        intro i hi
        have hx := hpre (i + 1) (by omega)
        have harith : start + (i + 1) = start + 1 + i := by omega
        rw [harith] at hx
        simpa using hx
      have hj2 : rest[j]? = some l := by simpa using hj
      have hm2 : oracle (start + 1 + j) = Except.ok m := by
        have harith : start + (j + 1) = start + 1 + j := by omega
        rw [harith] at hm
        exact hm
      have hrec := ih rest (start + 1) l m hpre2 hj2 hm2 hne
      rw [writeChunks, h0]
      simp [hrec, List.range_succ_eq_map, List.map_map, Function.comp]

-- ===========================================================================
-- Claim C4: what a short chunk does to the chunked transfer
-- ===========================================================================

/-- Claim C4 (amended): when the first j chunks transfer fully and chunk j
moves fewer bytes than requested, the chunked transfer surfaces
`ReadError` (reads) or `WriteError` (writes) to the caller and issues no
native transfer for any chunk after the failing one (the trace has exactly
j + 1 calls); however it triggers zero `abort_transfers` calls, not one —
the chunked engine in `src/device.rs` performs no abort on failure. -/
theorem c4_short_chunk {ε : Type} (oracle : Nat → Except ε Nat)
    (bufLen j l m : Nat)
    (hpre : ∀ i, i < j → oracle i = Except.ok ((chunkLens bufLen).getD i 0))
    (hj : (chunkLens bufLen)[j]? = some l)
    (hm : oracle j = Except.ok m)
    (hlt : m < l) :
    (Ft60xDevice.read oracle bufLen =
      (Except.error (BoxedError.ft60x Ft60xError.ReadError),
        ((List.range j).map (fun i =>
          UsbCall.readBulk 0x82 ((chunkLens bufLen).getD i 0)
            (some ((chunkLens bufLen).getD i 0)))) ++
          [UsbCall.readBulk 0x82 l (some m)]) ∧
     (Ft60xDevice.read oracle bufLen).2.length = j + 1 ∧
     abortCount (Ft60xDevice.read oracle bufLen).2 = 0) ∧
    (Ft60xDevice.write oracle bufLen =
      (Except.error (BoxedError.ft60x Ft60xError.WriteError),
        ((List.range j).map (fun i =>
          UsbCall.writeBulk 0x80 ((chunkLens bufLen).getD i 0)
            (some ((chunkLens bufLen).getD i 0)))) ++
          [UsbCall.writeBulk 0x80 l (some m)]) ∧
     (Ft60xDevice.write oracle bufLen).2.length = j + 1 ∧
     abortCount (Ft60xDevice.write oracle bufLen).2 = 0) := by
  have hne : m ≠ l := by omega
  have hpre0 : ∀ i, i < j →
      oracle (0 + i) = Except.ok ((chunkLens bufLen).getD i 0) := by
    intro i hi
    simpa using hpre i hi
  have hm0 : oracle (0 + j) = Except.ok m := by simpa using hm
  have hr := readChunks_short oracle j (chunkLens bufLen) 0 l m hpre0 hj hm0 hne
  have hw := writeChunks_short oracle j (chunkLens bufLen) 0 l m hpre0 hj hm0 hne
  have hrdev : Ft60xDevice.read oracle bufLen =
      (Except.error (BoxedError.ft60x Ft60xError.ReadError),
        ((List.range j).map (fun i =>
          UsbCall.readBulk 0x82 ((chunkLens bufLen).getD i 0)
            (some ((chunkLens bufLen).getD i 0)))) ++
          [UsbCall.readBulk 0x82 l (some m)]) := by
    rw [Ft60xDevice.read, hr]
  have hwdev : Ft60xDevice.write oracle bufLen =
      (Except.error (BoxedError.ft60x Ft60xError.WriteError),
        ((List.range j).map (fun i =>
          UsbCall.writeBulk 0x80 ((chunkLens bufLen).getD i 0)
            (some ((chunkLens bufLen).getD i 0)))) ++
          [UsbCall.writeBulk 0x80 l (some m)]) := by
    rw [Ft60xDevice.write, hw]
  refine ⟨⟨hrdev, ?_, ?_⟩, hwdev, ?_, ?_⟩
  · rw [hrdev]
    simp
  · rw [hrdev]
    simp [abortCount, List.countP_append, List.countP_map, Function.comp,
      UsbCall.isAbort, List.countP_cons, List.countP_nil]
  · rw [hwdev]
    simp
  · rw [hwdev]
    simp [abortCount, List.countP_append, List.countP_map, Function.comp,
      UsbCall.isAbort, List.countP_cons, List.countP_nil]

/-- Witness for C4: a 2-chunk read of 65536 bytes whose first chunk moves
only 100 bytes triggers zero abort calls. -/
theorem c4_short_chunk_witness :
    abortCount (Ft60xDevice.read
      (fun _ => (Except.ok 100 : Except Unit Nat)) 65536).2 = 0 :=
  ((c4_short_chunk (fun _ => (Except.ok 100 : Except Unit Nat)) 65536 0 32768 100
    (fun i hi => absurd hi (Nat.not_lt_zero i)) rfl rfl (by decide)).1).2.2

/-- Counterexample for C4 as stated: a 65536-byte read whose first chunk
moves 100 of the requested 32768 bytes surfaces `ReadError` and stops, but
its trace contains zero abort calls, not exactly one. -/
theorem c4_no_abort_counterexample :
    Ft60xDevice.read (fun _ => (Except.ok 100 : Except Unit Nat)) 65536 =
      (Except.error (BoxedError.ft60x Ft60xError.ReadError),
        [UsbCall.readBulk 0x82 32768 (some 100)]) ∧
    abortCount [UsbCall.readBulk 0x82 32768 (some 100)] = 0 ∧
    (0 : Nat) ≠ 1 := by
  refine ⟨rfl, rfl, by decide⟩

-- ===========================================================================
-- Claim C6: chunk splitting and the fully successful transfer
-- ===========================================================================

/-- Claim C6: the chunked transfer splits the buffer into consecutive
32768-byte blocks with the final block possibly smaller, issues exactly
ceil(len / 32768) native transfers in order (one per chunk); a
100000-byte buffer gives exactly 4 chunks of 32768, 32768, 32768 and 1696
bytes; and when every chunk fully succeeds the total bytes moved equals
the buffer length, for both read and write. -/
theorem c6_chunked_transfer {ε : Type} (oracle : Nat → Except ε Nat) (bufLen : Nat)
    (h : ∀ i l, (chunkLens bufLen)[i]? = some l → oracle i = Except.ok l) :
    chunkLens bufLen =
      List.replicate (bufLen / 32768) 32768 ++
        (if bufLen % 32768 = 0 then [] else [bufLen % 32768]) ∧
    (chunkLens bufLen).length = (bufLen + 32767) / 32768 ∧
    chunkLens 100000 = [32768, 32768, 32768, 1696] ∧
    Ft60xDevice.read oracle bufLen =
      (Except.ok (),
        (chunkLens bufLen).map (fun l => UsbCall.readBulk 0x82 l (some l))) ∧
    Ft60xDevice.write oracle bufLen =
      (Except.ok (),
        (chunkLens bufLen).map (fun l => UsbCall.writeBulk 0x80 l (some l))) ∧
    totalMoved (Ft60xDevice.read oracle bufLen).2 = bufLen ∧
    totalMoved (Ft60xDevice.write oracle bufLen).2 = bufLen := by
  have hb : blocksize = 32768 := rfl
  have hshape : chunkLens bufLen =
      List.replicate (bufLen / 32768) 32768 ++
        (if bufLen % 32768 = 0 then [] else [bufLen % 32768]) := by
    rw [chunkLens_eq, hb]
  have hlen : (chunkLens bufLen).length = (bufLen + 32767) / 32768 := by
    rw [hshape]
    by_cases hz : bufLen % 32768 = 0
    · simp [hz]
      omega
    · simp [hz]
      omega
  have hsum : (chunkLens bufLen).sum = bufLen := by
    rw [hshape]
    by_cases hz : bufLen % 32768 = 0
    · simp [hz, List.sum_replicate]
      omega
    · simp [hz, List.sum_replicate]
      omega
  have h0 : ∀ i l, (chunkLens bufLen)[i]? = some l →
      oracle (0 + i) = Except.ok l := by
    intro i l hl
    simpa using h i l hl
  have hrdev : Ft60xDevice.read oracle bufLen =
      (Except.ok (),
        (chunkLens bufLen).map (fun l => UsbCall.readBulk 0x82 l (some l))) := by
    rw [Ft60xDevice.read, readChunks_success oracle (chunkLens bufLen) 0 h0]
  have hwdev : Ft60xDevice.write oracle bufLen =
      (Except.ok (),
        (chunkLens bufLen).map (fun l => UsbCall.writeBulk 0x80 l (some l))) := by
    rw [Ft60xDevice.write, writeChunks_success oracle (chunkLens bufLen) 0 h0]
  refine ⟨hshape, hlen, rfl, hrdev, hwdev, ?_, ?_⟩
  · rw [hrdev]
    simp only [totalMoved, List.map_map]
    have hcomp : (UsbCall.moved ∘ fun l => UsbCall.readBulk 0x82 l (some l)) =
        fun l => l := by
      funext l
      rfl
    rw [hcomp]
    simpa using hsum
  · rw [hwdev]
    simp only [totalMoved, List.map_map]
    have hcomp : (UsbCall.moved ∘ fun l => UsbCall.writeBulk 0x80 l (some l)) =
        fun l => l := by
      funext l
      rfl
    rw [hcomp]
    simpa using hsum

/-- Witness for C6: a single-chunk buffer of exactly 32768 bytes, fully
transferred, moves 32768 bytes in total. -/
theorem c6_chunked_transfer_witness :
    totalMoved (Ft60xDevice.read
      (fun _ => (Except.ok 32768 : Except Unit Nat)) 32768).2 = 32768 := by
  have h : ∀ (i l : Nat), (chunkLens 32768)[i]? = some l →
      (fun _ => (Except.ok 32768 : Except Unit Nat)) i = Except.ok l := by
    intro i l hl
    have hc : chunkLens 32768 = [32768] := rfl
    rw [hc] at hl
    cases i with
    | zero =>
      simp at hl
      rw [hl]
    | succ n =>
      rw [List.getElem?_cons_succ, List.getElem?_nil] at hl
      exact Option.noConfusion hl
  exact (c6_chunked_transfer
    (fun _ => (Except.ok 32768 : Except Unit Nat)) 32768 h).2.2.2.2.2.1
